import Mathlib

/-!
Verification of the BAC Helicopters ticketing backend (`main_template.py`)
against its natural-language specification.

Strings are modelled as lists of characters; the Python string primitives
used by the code (`str.lower`, `str.strip`, the `\w`/`\s` regex character
classes) are modelled on their ASCII fragment via character codes.
-/

/-- Strings of the backend are modelled as lists of characters. -/
abbrev Str := List Char

/-- ASCII model of the Python regex class `\s` (also the set stripped by
`str.strip`): space, tab, newline, vertical tab, form feed, carriage return. -/
def isSpacePy (c : Char) : Bool :=
  decide (c.toNat = 32 ∨ c.toNat = 9 ∨ c.toNat = 10 ∨ c.toNat = 11 ∨
    c.toNat = 12 ∨ c.toNat = 13)

/-- ASCII decimal digit, as matched by Python `\w`. -/
def isDigitPy (c : Char) : Bool :=
  decide (48 ≤ c.toNat ∧ c.toNat ≤ 57)

/-- ASCII letter (either case), as matched by Python `\w`. -/
def isAlphaPy (c : Char) : Bool :=
  decide ((65 ≤ c.toNat ∧ c.toNat ≤ 90) ∨ (97 ≤ c.toNat ∧ c.toNat ≤ 122))

/-- ASCII model of the Python regex class `\w`: letters, digits, underscore. -/
def isWordPy (c : Char) : Bool :=
  isAlphaPy c || isDigitPy c || decide (c.toNat = 95)

/-- Characters matched by the regex class used in
`re.sub(r'[-\s]+', '-', text)` of `slugify`: a hyphen or whitespace. -/
def isDashSpace (c : Char) : Bool :=
  decide (c = '-') || isSpacePy c

/-- ASCII model of Python `str.lower` on one character. -/
def pyToLower (c : Char) : Char :=
  if 65 ≤ c.toNat ∧ c.toNat ≤ 90 then Char.ofNat (c.toNat + 32) else c

/-- Model of Python `str.strip`: drop whitespace from both ends. -/
def pyStrip (s : Str) : Str :=
  ((s.dropWhile isSpacePy).reverse.dropWhile isSpacePy).reverse

/-- Model of `re.sub(r'[-\s]+', '-', text)`: every maximal run of hyphens
and whitespace is replaced by a single hyphen. -/
def collapseDashes : Str → Str
  | [] => []
  | [c] => if isDashSpace c then ['-'] else [c]
  | c :: d :: rest =>
    if isDashSpace c then
      if isDashSpace d then collapseDashes (d :: rest)
      else '-' :: collapseDashes (d :: rest)
    else c :: collapseDashes (d :: rest)

/-- Characters kept by `re.sub(r'[^\w\s-]', '', text)` in `slugify`:
word characters, whitespace, and the hyphen. -/
def keepSlug (c : Char) : Bool :=
  isWordPy c || isSpacePy c || decide (c = '-')

/-- Embedding of `slugify` (main_template.py lines 173-178):
lower-case, strip, delete characters outside `[\w\s-]`, then collapse
runs of `[-\s]` to a single hyphen. -/
def slugify (s : Str) : Str :=
  collapseDashes ((pyStrip (s.map pyToLower)).filter keepSlug)

/-- Embedding of `generate_flight_id` (main_template.py lines 181-183):
the string date + underscore + slugified route + underscore + slugified
registration. -/
def generate_flight_id (date route reg : Str) : Str :=
  date ++ '_' :: slugify route ++ '_' :: slugify reg

example : slugify ('C' :: 'P' :: 'T' :: ' ' :: '-' :: ' ' :: 'R' :: 'O' :: 'B' :: []) =
    ('c' :: 'p' :: 't' :: '-' :: 'r' :: 'o' :: 'b' :: []) := by decide

example : slugify ('_' :: []) = ('_' :: []) := by decide

example : slugify (' ' :: 'a' :: []) = ('a' :: []) := by decide

/-! Basic character-level facts used to analyse `slugify`. -/

theorem char_toNat_ofNat (n : ℕ) (h : n < 55296) : (Char.ofNat n).toNat = n := by
  simp [Char.ofNat, Nat.isValidChar, h, Char.toNat, Char.ofNatAux,
    UInt32.toNat, UInt32.ofNatCore, BitVec.toNat_ofNatLt]

theorem pyToLower_fix (c : Char) (h : ¬(65 ≤ c.toNat ∧ c.toNat ≤ 90)) :
    pyToLower c = c := by
  unfold pyToLower; rw [if_neg h]

theorem pyToLower_toNat (c : Char) :
    (pyToLower c).toNat =
      if 65 ≤ c.toNat ∧ c.toNat ≤ 90 then c.toNat + 32 else c.toNat := by
  unfold pyToLower
  split
  · next h => exact char_toNat_ofNat _ (by omega)
  · rfl

theorem pyToLower_idem (c : Char) : pyToLower (pyToLower c) = pyToLower c := by
  by_cases h : 65 ≤ c.toNat ∧ c.toNat ≤ 90
  · apply pyToLower_fix
    rw [pyToLower_toNat, if_pos h]
    omega
  · rw [pyToLower_fix c h]
    exact pyToLower_fix c h

theorem isWordPy_not_space {c : Char} (h : isWordPy c = true) :
    isSpacePy c = false := by
  simp only [isWordPy, isAlphaPy, isDigitPy, Bool.or_eq_true,
    decide_eq_true_eq] at h
  simp only [isSpacePy, decide_eq_false_iff_not]
  omega

theorem isWordPy_not_dash {c : Char} (h : isWordPy c = true) :
    isDashSpace c = false := by
  have hs := isWordPy_not_space h
  simp only [isDashSpace, Bool.or_eq_false_iff, decide_eq_false_iff_not]
  refine ⟨?_, hs⟩
  rintro rfl
  simp [isWordPy, isAlphaPy, isDigitPy] at h

/-- Characters that can occur in the output of `slugify`: a word character
already in lower case, or a hyphen. -/
def slugChar (c : Char) : Bool :=
  (isWordPy c && decide (pyToLower c = c)) || decide (c = '-')

/-- No two adjacent characters of the list are in the `[-\s]` class. -/
def noAdjDash : Str → Bool
  | [] => true
  | [_] => true
  | c :: d :: rest => (!(isDashSpace c && isDashSpace d)) && noAdjDash (d :: rest)

/-- Characterisation of the strings that `slugify` cannot change. -/
def slugOk (s : Str) : Bool := s.all slugChar && noAdjDash s

theorem slugChar_cases {c : Char} (h : slugChar c = true) :
    (isWordPy c = true ∧ pyToLower c = c) ∨ c = '-' := by
  simp only [slugChar, Bool.or_eq_true, Bool.and_eq_true, decide_eq_true_eq] at h
  exact h

theorem slugChar_not_space {c : Char} (h : slugChar c = true) :
    isSpacePy c = false := by
  rcases slugChar_cases h with ⟨h1, _⟩ | rfl
  · exact isWordPy_not_space h1
  · decide

theorem slugChar_lower_fix {c : Char} (h : slugChar c = true) :
    pyToLower c = c := by
  rcases slugChar_cases h with ⟨_, h2⟩ | rfl
  · exact h2
  · decide

theorem slugChar_dash_eq {c : Char} (h : slugChar c = true)
    (hd : isDashSpace c = true) : c = '-' := by
  rcases slugChar_cases h with ⟨h1, _⟩ | rfl
  · rw [isWordPy_not_dash h1] at hd
    exact absurd hd (by simp)
  · rfl

theorem slugChar_keep {c : Char} (h : slugChar c = true) :
    keepSlug c = true := by
  rcases slugChar_cases h with ⟨h1, _⟩ | rfl
  · simp [keepSlug, h1]
  · decide

theorem keep_not_dash_word {c : Char} (hk : keepSlug c = true)
    (hd : isDashSpace c = false) : isWordPy c = true := by
  simp only [isDashSpace, Bool.or_eq_false_iff, decide_eq_false_iff_not] at hd
  simp only [keepSlug, Bool.or_eq_true, decide_eq_true_eq] at hk
  rcases hk with (h1 | h1) | h1
  · exact h1
  · rw [h1] at hd
    exact absurd hd.2 (by simp)
  · exact absurd h1 hd.1

theorem noAdjDash_cons {x : Char} {l : Str} (hl : noAdjDash l = true)
    (hx : ∀ h, l.head? = some h → (isDashSpace x && isDashSpace h) = false) :
    noAdjDash (x :: l) = true := by
  cases l with
  | nil => rfl
  | cons d t =>
    simp only [noAdjDash, Bool.and_eq_true, Bool.not_eq_true']
    exact ⟨hx d rfl, hl⟩

theorem collapseDashes_head {d : Char} (r : Str) (hd : isDashSpace d = false) :
    ∃ t, collapseDashes (d :: r) = d :: t := by
  cases r with
  | nil => exact ⟨[], by simp [collapseDashes, hd]⟩
  | cons e r2 => exact ⟨collapseDashes (e :: r2), by simp [collapseDashes, hd]⟩

theorem collapseDashes_all_slugChar :
    ∀ l : Str, (∀ c ∈ l, keepSlug c = true ∧ pyToLower c = c) →
      ∀ c ∈ collapseDashes l, slugChar c = true := by
  intro l
  induction l with
  | nil =>
    intro _ c hc
    simp [collapseDashes] at hc
  | cons c tail ih =>
    intro h x hx
    cases tail with
    | nil =>
      cases hd : isDashSpace c with
      | true =>
        simp only [collapseDashes, if_pos hd, List.mem_singleton] at hx
        rw [hx]; decide
      | false =>
        simp only [collapseDashes, hd, Bool.false_eq_true, if_false,
          List.mem_singleton] at hx
        have hc := h c (by simp)
        rw [hx]
        have hw := keep_not_dash_word hc.1 hd
        simp [slugChar, hw, hc.2]
    | cons d rest =>
      have htail : ∀ y ∈ d :: rest, keepSlug y = true ∧ pyToLower y = y := by
        intro y hy; exact h y (List.mem_cons_of_mem _ hy)
      cases hc : isDashSpace c with
      | true =>
        cases hd : isDashSpace d with
        | true =>
          simp only [collapseDashes, if_pos hc, if_pos hd] at hx
          exact ih htail x hx
        | false =>
          simp only [collapseDashes, if_pos hc, hd, Bool.false_eq_true,
            if_false, List.mem_cons] at hx
          rcases hx with rfl | hx
          · decide
          · exact ih htail x hx
      | false =>
        simp only [collapseDashes, hc, Bool.false_eq_true, if_false,
          List.mem_cons] at hx
        rcases hx with rfl | hx
        · have hcc := h x (by simp)
          have hw := keep_not_dash_word hcc.1 hc
          simp [slugChar, hw, hcc.2]
        · exact ih htail x hx

theorem collapseDashes_noAdj : ∀ l : Str, noAdjDash (collapseDashes l) = true := by
  intro l
  induction l with
  | nil => rfl
  | cons c tail ih =>
    cases tail with
    | nil =>
      cases hd : isDashSpace c with
      | true => simp [collapseDashes, hd, noAdjDash]
      | false => simp [collapseDashes, hd, noAdjDash]
    | cons d rest =>
      cases hc : isDashSpace c with
      | true =>
        cases hd : isDashSpace d with
        | true => simpa [collapseDashes, hc, hd] using ih
        | false =>
          simp only [collapseDashes, if_pos hc, hd, Bool.false_eq_true, if_false]
          obtain ⟨t, ht⟩ := collapseDashes_head rest hd
          apply noAdjDash_cons ih
          intro h hh
          rw [ht] at hh
          simp only [List.head?_cons, Option.some.injEq] at hh
          rw [← hh, hd]
          simp
      | false =>
        simp only [collapseDashes, hc, Bool.false_eq_true, if_false]
        apply noAdjDash_cons ih
        intro h _
        rw [hc]
        simp

theorem collapseDashes_id :
    ∀ l : Str, (∀ c ∈ l, slugChar c = true) → noAdjDash l = true →
      collapseDashes l = l := by
  intro l
  induction l with
  | nil => intro _ _; rfl
  | cons c tail ih =>
    intro h1 h2
    cases tail with
    | nil =>
      cases hd : isDashSpace c with
      | true =>
        have := slugChar_dash_eq (h1 c (by simp)) hd
        simp [collapseDashes, hd, this]
      | false => simp [collapseDashes, hd]
    | cons d rest =>
      have htail1 : ∀ y ∈ d :: rest, slugChar y = true := by
        intro y hy; exact h1 y (List.mem_cons_of_mem _ hy)
      have htail2 : noAdjDash (d :: rest) = true := by
        simp only [noAdjDash, Bool.and_eq_true] at h2
        exact h2.2
      cases hc : isDashSpace c with
      | true =>
        have hcd : c = '-' := slugChar_dash_eq (h1 c (by simp)) hc
        have hd : isDashSpace d = false := by
          simp only [noAdjDash, Bool.and_eq_true, Bool.not_eq_true'] at h2
          have h3 := h2.1
          rw [hc] at h3
          simpa using h3
        simp [collapseDashes, hc, hd, hcd, ih htail1 htail2]
      | false =>
        simp [collapseDashes, hc, ih htail1 htail2]

theorem pyStrip_id (l : Str) (h : ∀ c ∈ l, isSpacePy c = false) :
    pyStrip l = l := by
  unfold pyStrip
  have h1 : l.dropWhile isSpacePy = l := by
    rw [List.dropWhile_eq_self_iff]
    intro hl
    rw [h _ (List.get_mem l 0 hl)]
    simp
  rw [h1]
  have h2 : l.reverse.dropWhile isSpacePy = l.reverse := by
    rw [List.dropWhile_eq_self_iff]
    intro hl
    rw [h _ (List.mem_reverse.mp (List.get_mem l.reverse 0 hl))]
    simp
  rw [h2, List.reverse_reverse]

theorem map_lower_id (l : Str) (h : ∀ c ∈ l, pyToLower c = c) :
    l.map pyToLower = l := by
  induction l with
  | nil => rfl
  | cons c tail ih =>
    simp only [List.map_cons, h c (by simp), List.cons.injEq, true_and]
    exact ih (fun y hy => h y (List.mem_cons_of_mem _ hy))

theorem slugify_id_of_ok (s : Str) (h : slugOk s = true) : slugify s = s := by
  have h2 : s.all slugChar = true ∧ noAdjDash s = true := by
    simpa [slugOk, Bool.and_eq_true] using h
  obtain ⟨hall, hnad⟩ := h2
  rw [List.all_eq_true] at hall
  unfold slugify
  rw [map_lower_id s (fun c hc => slugChar_lower_fix (hall c hc)),
    pyStrip_id s (fun c hc => slugChar_not_space (hall c hc)),
    List.filter_eq_self.mpr (fun c hc => slugChar_keep (hall c hc))]
  exact collapseDashes_id s (fun c hc => hall c hc) hnad

theorem slugOk_slugify (s : Str) : slugOk (slugify s) = true := by
  have hbase : ∀ c ∈ (pyStrip (s.map pyToLower)).filter keepSlug,
      keepSlug c = true ∧ pyToLower c = c := by
    intro c hc
    obtain ⟨hmem, hkeep⟩ := List.mem_filter.mp hc
    refine ⟨hkeep, ?_⟩
    unfold pyStrip at hmem
    have hmem2 : c ∈ s.map pyToLower :=
      (List.dropWhile_sublist _).subset
        (List.mem_reverse.mp ((List.dropWhile_sublist _).subset
          (List.mem_reverse.mp hmem)))
    obtain ⟨x, _, rfl⟩ := List.mem_map.mp hmem2
    exact pyToLower_idem x
  unfold slugOk slugify
  rw [Bool.and_eq_true, List.all_eq_true]
  exact ⟨fun c hc => collapseDashes_all_slugChar _ hbase c hc,
    collapseDashes_noAdj _⟩

/-- Run-collapsing substitution in an alternative left-to-right scanning
formulation: emit a single hyphen at the start of each `[-\s]` run. The flag
records whether the scan is currently inside such a run. -/
def collapseRuns : Bool → Str → Str
  | _, [] => []
  | inRun, c :: r =>
    if isDashSpace c then
      if inRun then collapseRuns true r else '-' :: collapseRuns true r
    else c :: collapseRuns false r

theorem collapseDashes_cons_not_dash {d : Char} (r : Str)
    (hd : isDashSpace d = false) :
    collapseDashes (d :: r) = d :: collapseDashes r := by
  cases r with
  | nil => simp [collapseDashes, hd]
  | cons e r2 => simp [collapseDashes, hd]

theorem collapseRuns_eq (l : Str) :
    collapseRuns false l = collapseDashes l ∧
    ∀ c, isDashSpace c = true →
      collapseDashes (c :: l) = '-' :: collapseRuns true l := by
  induction l with
  | nil =>
    refine ⟨rfl, ?_⟩
    intro c hc
    simp [collapseDashes, collapseRuns, hc]
  | cons d r ih =>
    obtain ⟨ih1, ih2⟩ := ih
    constructor
    · cases hd : isDashSpace d with
      | true =>
        simp only [collapseRuns, if_pos hd, Bool.false_eq_true, if_false]
        exact (ih2 d hd).symm
      | false =>
        simp only [collapseRuns, hd, Bool.false_eq_true, if_false]
        rw [ih1, collapseDashes_cons_not_dash r hd]
    · intro c hc
      cases hd : isDashSpace d with
      | true =>
        simp only [collapseDashes, if_pos hc, if_pos hd]
        rw [ih2 d hd]
        simp [collapseRuns, hd]
      | false =>
        simp only [collapseDashes, if_pos hc, hd, Bool.false_eq_true, if_false]
        rw [collapseDashes_cons_not_dash r hd]
        simp [collapseRuns, hd, ih1]

/-- The slug operation exactly as the claim words it: lower-case the input,
strip every character that is not alphanumeric, whitespace, or hyphen, and
collapse runs of whitespace and hyphens to a single hyphen. (It omits the
leading/trailing whitespace strip and keeps no underscore.) -/
def slugClaimWords (s : Str) : Str :=
  collapseDashes ((s.map pyToLower).filter
    (fun c => isAlphaPy c || isDigitPy c || isSpacePy c || decide (c = '-')))

/-- The slug operation as amended: lower-case the input, strip leading and
trailing whitespace, remove every character that is not a word character
(letter, digit, or underscore, code 95), whitespace, or hyphen, and collapse
each run of whitespace and hyphens to a single hyphen. -/
def slugAmendedWords (s : Str) : Str :=
  collapseRuns false ((pyStrip (s.map pyToLower)).filter
    (fun c => isAlphaPy c || isDigitPy c || decide (c.toNat = 95) ||
      isSpacePy c || decide (c = '-')))

theorem slugify_eq_amended (s : Str) : slugify s = slugAmendedWords s := by
  unfold slugify slugAmendedWords
  rw [List.filter_congr (fun c _ => ?_), (collapseRuns_eq _).1]
  simp [keepSlug, isWordPy, Bool.or_assoc]

/-! Ticket PDF: the conditions-of-carriage block of `create_ticket_pdf`
(main_template.py lines 608-649). -/

/-- One reportlab millimetre in points (`mm = 72 / 25.4`). -/
def mmQ : ℚ := 360 / 127

/-- Vertical reserve kept for the dangerous-goods notice
(main_template.py line 617, `dg_height = 28 * mm`). -/
def dg_height : ℚ := 28 * mmQ

/-- Vertical reserve kept for the footer
(main_template.py line 618, `footer_height = 10 * mm`). -/
def footer_height : ℚ := 10 * mmQ

/-- Height available to the conditions block (main_template.py line 619):
the space between the draw cursor `y` and the inner margin, minus the two
reserves. -/
def conditions_height (y inner_margin : ℚ) : ℚ :=
  y - inner_margin - dg_height - footer_height

/-- Font size at which `create_ticket_pdf` typesets the conditions text
(main_template.py line 625, `fontSize=5.5` in the `Conditions` style).
The code commits this size unconditionally: the size is a constant function
of the available height and of the number of text lines. -/
def conditionsFontSize (_availableHeight : ℚ) (_lineCount : ℕ) : ℚ := 11 / 2

/-- Leading of the conditions style (main_template.py line 626,
`leading=6.5`). -/
def conditionsLeading : ℚ := 13 / 2

/-- Two-column split of the conditions lines (main_template.py lines
631-634): `mid = len(lines) // 2`, column one is `lines[:mid]`, column two
is `lines[mid:]`. -/
def splitConditions (lines : List Str) : List Str × List Str :=
  (lines.take (lines.length / 2), lines.drop (lines.length / 2))

/-- Definition following the specification's words (spec.md section 4.3,
auto-fit algorithm): candidates are tried in the given descending order and
the first size at which both columns fit is committed; if no candidate fits,
the last (smallest) candidate is used. -/
def autoFitFontSize : List ℚ → (ℚ → Bool) → ℚ
  | [], _ => 0
  | [c], _ => c
  | c :: c2 :: rest, fits =>
    if fits c then c else autoFitFontSize (c2 :: rest) fits

theorem autoFit_const_false :
    ∀ (l : List ℚ) (h : l ≠ []), autoFitFontSize l (fun _ => false) = l.getLast h := by
  intro l
  induction l with
  | nil => intro h; exact absurd rfl h
  | cons c tail ih =>
    intro _
    cases tail with
    | nil => rfl
    | cons d rest =>
      show autoFitFontSize (c :: d :: rest) (fun _ => false) = _
      rw [List.getLast_cons (by simp)]
      simpa [autoFitFontSize] using ih (by simp)

/-! Ticket counter (`get_next_ticket_number`, main_template.py lines
231-247). -/

/-- Embedding of `get_next_ticket_number`. The counter file is `some n`
when it exists and holds the integer n, `none` when it does not exist (the
code then starts from 1548). The result is the assigned ticket number
together with the new contents of the counter file. -/
def get_next_ticket_number (file : Option ℤ) : ℤ × Option ℤ :=
  match file with
  | some current => (current + 1, some (current + 1))
  | none => (1548 + 1, some (1548 + 1))

/-! Email sending (`send_email`, main_template.py lines 688-743). -/

/-- Outcome of one attempted SMTP delivery, covering the exception classes
the code catches separately. -/
inductive Transport where
  | delivered
  | authError
  | smtpError
  | otherError
deriving DecidableEq

/-- Where the composed message ended up. -/
inductive MailFate where
  | sentLive
  | savedToOutbox
deriving DecidableEq

/-- Embedding of `send_email`: when SMTP is configured and the transport
succeeds the function returns True; on `SMTPAuthenticationError`,
`SMTPException` or any other exception it falls through, and — exactly as
when SMTP is not configured — writes the composed message as an `.eml` file
into the outbox and returns False. -/
def send_email (smtpConfigured : Bool) (t : Transport) : Bool × MailFate :=
  if smtpConfigured then
    match t with
    | Transport.delivered => (true, MailFate.sentLive)
    | Transport.authError => (false, MailFate.savedToOutbox)
    | Transport.smtpError => (false, MailFate.savedToOutbox)
    | Transport.otherError => (false, MailFate.savedToOutbox)
  else (false, MailFate.savedToOutbox)

/-! Manifest store (`append_to_manifest` / `read_manifest`,
main_template.py lines 261-283). -/

/-- One manifest row, with the fixed column schema `MANIFEST_COLUMNS`
(main_template.py lines 254-258). -/
structure PassengerRow where
  ticket_number : Str
  timestamp : Str
  name : Str
  body_weight : Str
  num_bags : Str
  bag_weight : Str
  email : Str
  flight_date : Str
  flight_time : Str
  route : Str
  ac_type : Str
  registration : Str
  pilot : Str
  dg_ack : Str

/-- One physical line of a manifest CSV file: the header line or a data
row. -/
inductive ManifestLine where
  | header
  | row (r : PassengerRow)

/-- Embedding of `append_to_manifest`: the manifest file is `none` when it
does not exist yet; the header is written exactly when the file is new, and
a data row is appended in both cases. -/
def append_to_manifest (file : Option (List ManifestLine)) (r : PassengerRow) :
    List ManifestLine :=
  match file with
  | none => [ManifestLine.header, ManifestLine.row r]
  | some ls => ls ++ [ManifestLine.row r]

/-- N successive appends, starting from a given file state. -/
def appendAllRows (file : Option (List ManifestLine)) (rows : List PassengerRow) :
    Option (List ManifestLine) :=
  rows.foldl (fun f r => some (append_to_manifest f r)) file

theorem appendAllRows_some (ls : List ManifestLine) (rows : List PassengerRow) :
    appendAllRows (some ls) rows = some (ls ++ rows.map ManifestLine.row) := by
  induction rows generalizing ls with
  | nil => simp [appendAllRows]
  | cons r rs ih =>
    show appendAllRows (some (append_to_manifest (some ls) r)) rs = _
    rw [append_to_manifest, ih]
    simp

/-! Flight summary (`get_flight_summary`, main_template.py lines 302-349). -/

/-- Classification of one CSV cell by the outcome of the Python conversion
`float(cell or 0)` (or `int(cell or 0)`): a numeric cell with value q, an
empty cell (the `or 0` default turns it into 0), or a malformed cell on
which the conversion raises `ValueError`. -/
inductive NumCell where
  | num (q : ℚ)
  | empty
  | bad
deriving DecidableEq

/-- The value `float(cell or 0)` evaluates to, or `none` when it raises. -/
def floatPy : NumCell → Option ℚ
  | NumCell.num q => some q
  | NumCell.empty => some 0
  | NumCell.bad => none

/-- The numeric fields of one manifest row as read back by
`get_flight_summary`. -/
structure SummaryRow where
  body_weight : NumCell
  bag_weight : NumCell
  num_bags : NumCell
deriving DecidableEq

/-- Embedding of the per-row accumulation of `get_flight_summary`
(main_template.py lines 312-318): the three `+=` statements run inside one
`try` block in the order body_weight, bag_weight, num_bags; the first
conversion that raises aborts the remainder of the row, while increments
already executed are kept, and the exception is swallowed. -/
def rowTotalsStep (acc : ℚ × ℚ × ℚ) (r : SummaryRow) : ℚ × ℚ × ℚ :=
  match floatPy r.body_weight with
  | none => acc
  | some b =>
    match floatPy r.bag_weight with
    | none => (acc.1 + b, acc.2.1, acc.2.2)
    | some g =>
      match floatPy r.num_bags with
      | none => (acc.1 + b, acc.2.1 + g, acc.2.2)
      | some k => (acc.1 + b, acc.2.1 + g, acc.2.2 + k)

/-- The three totals computed by `get_flight_summary` over all rows. -/
def flightTotals (rows : List SummaryRow) : ℚ × ℚ × ℚ :=
  rows.foldl rowTotalsStep (0, 0, 0)

/-- Embedding of `read_manifest` (main_template.py lines 275-283): a missing
manifest file yields the empty row list, not an error. -/
def read_manifest (file : Option (List SummaryRow)) : List SummaryRow :=
  file.getD []

/-- Embedding of `get_flight_summary` (main_template.py lines 302-349),
restricted to the passenger count and the three numeric totals. -/
def get_flight_summary (file : Option (List SummaryRow)) : ℕ × ℚ × ℚ × ℚ :=
  ((read_manifest file).length, flightTotals (read_manifest file))

/-- The per-row accumulation as the claim describes it: every field that
parses contributes its value and every field that fails contributes zero,
independently of the other fields of the same row. -/
def rowTotalsClaimStep (acc : ℚ × ℚ × ℚ) (r : SummaryRow) : ℚ × ℚ × ℚ :=
  (acc.1 + (floatPy r.body_weight).getD 0,
   acc.2.1 + (floatPy r.bag_weight).getD 0,
   acc.2.2 + (floatPy r.num_bags).getD 0)

/-- The totals as the claim describes them. -/
def flightTotalsClaim (rows : List SummaryRow) : ℚ × ℚ × ℚ :=
  rows.foldl rowTotalsClaimStep (0, 0, 0)

/-- Body-weight contribution of one row under the code's semantics. -/
def bodyContrib (r : SummaryRow) : ℚ := (floatPy r.body_weight).getD 0

/-- Bag-weight contribution of one row under the code's semantics: counted
only when body_weight parsed first. -/
def bagContrib (r : SummaryRow) : ℚ :=
  if (floatPy r.body_weight).isSome then (floatPy r.bag_weight).getD 0 else 0

/-- Bag-count contribution of one row under the code's semantics: counted
only when body_weight and bag_weight both parsed first. -/
def bagsContrib (r : SummaryRow) : ℚ :=
  if (floatPy r.body_weight).isSome ∧ (floatPy r.bag_weight).isSome then
    (floatPy r.num_bags).getD 0
  else 0

theorem flightTotals_foldl (rows : List SummaryRow) :
    ∀ acc : ℚ × ℚ × ℚ, rows.foldl rowTotalsStep acc =
      (acc.1 + (rows.map bodyContrib).sum,
       acc.2.1 + (rows.map bagContrib).sum,
       acc.2.2 + (rows.map bagsContrib).sum) := by
  induction rows with
  | nil => intro acc; simp
  | cons r rs ih =>
    intro acc
    show rs.foldl rowTotalsStep (rowTotalsStep acc r) = _
    rw [ih]
    unfold rowTotalsStep bodyContrib bagContrib bagsContrib
    cases hb : floatPy r.body_weight with
    | none => simp [hb, add_assoc]
    | some b =>
      cases hg : floatPy r.bag_weight with
      | none => simp [hb, hg, add_assoc]
      | some g =>
        cases hk : floatPy r.num_bags with
        | none => simp [hb, hg, hk, add_assoc]
        | some k => simp [hb, hg, hk, add_assoc]

/-! Submission handler (`submit_ticket`, main_template.py lines 1068-1179). -/

/-- Base64 size cap for a single image field (main_template.py line 95). -/
def MAX_SINGLE_IMAGE_BASE64 : ℕ := 800000

/-- Base64 size cap for the three image fields combined
(main_template.py line 96). -/
def MAX_TOTAL_BASE64 : ℕ := 1200000

/-- The JSON submission payload. A field is `none` when absent; Python's
falsy test `not data.get(field)` is modelled by `truthy` below, which is
false for an absent field and for an empty string. The two acknowledgment
flags are booleans (an absent flag behaves as false). -/
structure Payload where
  name : Option Str
  email : Option Str
  body_weight : Option Str
  flight_date : Option Str
  route : Option Str
  registration : Option Str
  flight_time : Option Str
  ac_type : Option Str
  pilot : Option Str
  num_bags : Option Str
  bag_weight : Option Str
  dg_acknowledged : Bool
  conditions_accepted : Bool
  signature_data : Option Str
  photo1_data : Option Str
  photo2_data : Option Str

/-- Python truthiness of `data.get(field)` for a string field. -/
def truthy (o : Option Str) : Bool :=
  match o with
  | none => false
  | some s => !s.isEmpty

/-- The observable side effects of a submission, in the order the handler
performs them. -/
inductive Effect where
  | decodeImage
  | counterWrite (n : ℤ)
  | pdfWrite
  | manifestAppend (flight_id : Str) (ticket : ℤ)
  | emailPassenger
  | emailPilot
deriving DecidableEq

/-- Result of one call to the submission handler: HTTP status, the counter
file after the call, the effects performed, and on success the assigned
ticket number and derived flight id. -/
structure SubmitResult where
  status : ℕ
  counter : Option ℤ
  effects : List Effect
  ticket_number : Option ℤ
  flight_id : Option Str
deriving DecidableEq

/-- The rejection result: HTTP 400, counter file untouched, no effects. -/
def rejected (counterFile : Option ℤ) : SubmitResult :=
  ⟨400, counterFile, [], none, none⟩

/-- Embedding of `submit_ticket` (main_template.py lines 1068-1179): the
validation chain in source order (required fields, acknowledgments,
signature presence, per-image base64 caps, combined base64 cap), then the
effectful success path (decode images, draw ticket, advance counter, write
PDF, append manifest row, send passenger and pilot email). -/
def submit_ticket (p : Payload) (counterFile : Option ℤ) : SubmitResult :=
  if !truthy p.name then rejected counterFile
  else if !truthy p.email then rejected counterFile
  else if !truthy p.body_weight then rejected counterFile
  else if !truthy p.flight_date then rejected counterFile
  else if !truthy p.route then rejected counterFile
  else if !truthy p.registration then rejected counterFile
  else if !p.dg_acknowledged then rejected counterFile
  else if !p.conditions_accepted then rejected counterFile
  else if !truthy p.signature_data then rejected counterFile
  else
    let sig := p.signature_data.getD []
    let ph1 := p.photo1_data.getD []
    let ph2 := p.photo2_data.getD []
    if !sig.isEmpty && decide (sig.length > MAX_SINGLE_IMAGE_BASE64) then
      rejected counterFile
    else if !ph1.isEmpty && decide (ph1.length > MAX_SINGLE_IMAGE_BASE64) then
      rejected counterFile
    else if !ph2.isEmpty && decide (ph2.length > MAX_SINGLE_IMAGE_BASE64) then
      rejected counterFile
    else if sig.length + ph1.length + ph2.length > MAX_TOTAL_BASE64 then
      rejected counterFile
    else
      let tn := (get_next_ticket_number counterFile).1
      let counterAfter := (get_next_ticket_number counterFile).2
      let fid := generate_flight_id (p.flight_date.getD [])
        (p.route.getD []) (p.registration.getD [])
      ⟨200, counterAfter,
        [Effect.decodeImage, Effect.counterWrite tn, Effect.pdfWrite,
          Effect.manifestAppend fid tn, Effect.emailPassenger, Effect.emailPilot],
        some tn, some fid⟩

/-! Share-link handler (`create_link`, main_template.py lines 1196-1265). -/

/-- The stripped form fields of a create-link request. -/
structure LinkForm where
  date : Str
  time : Str
  route : Str
  ac_type : Str
  reg : Str
  pilot : Str
  emails : Str
deriving DecidableEq

/-- Result of one call to the create-link handler: HTTP status, the
query parameters of the share URL (`none` on rejection), the content
encoded in the QR image, and whether an email send was attempted together
with its outcome. -/
structure LinkResult where
  status : ℕ
  urlParams : Option (List (Str × Str))
  qrContent : Option (List (Str × Str))
  emailAttempt : Option Bool
deriving DecidableEq

/-- Embedding of `create_link` (main_template.py lines 1196-1265), after
admin-key check: validation is `all([flight_date, flight_time, route,
registration, pilot])` — the aircraft type is not in the validated list.
On success a URL is built from the six query parameters, the QR code
encodes that URL, an email is attempted only when recipients were given,
and the handler returns HTTP 200 with URL and QR regardless of the email
transport outcome (`transportOk`). -/
def create_link (f : LinkForm) (transportOk : Bool) : LinkResult :=
  if f.date.isEmpty || f.time.isEmpty || f.route.isEmpty ||
      f.reg.isEmpty || f.pilot.isEmpty then
    ⟨400, none, none, none⟩
  else
    let params := [(('d' :: 'a' :: 't' :: 'e' :: []), f.date),
      (('t' :: 'i' :: 'm' :: 'e' :: []), f.time),
      (('r' :: 'o' :: 'u' :: 't' :: 'e' :: []), f.route),
      (('a' :: 'c' :: '_' :: 't' :: 'y' :: 'p' :: 'e' :: []), f.ac_type),
      (('r' :: 'e' :: 'g' :: []), f.reg),
      (('p' :: 'i' :: 'l' :: 'o' :: 't' :: []), f.pilot)]
    let emailAttempt := if f.emails.isEmpty then none else some transportOk
    ⟨200, some params, some params, emailAttempt⟩

/-! Helper lemmas for the submission handler. -/

/-- Content of a successful submission: HTTP 200, counter advanced, the six
effects in handler order, the assigned number and the derived flight id. -/
def submitSuccess (p : Payload) (cf : Option ℤ) : SubmitResult :=
  ⟨200, (get_next_ticket_number cf).2,
    [Effect.decodeImage, Effect.counterWrite (get_next_ticket_number cf).1,
      Effect.pdfWrite,
      Effect.manifestAppend (generate_flight_id (p.flight_date.getD [])
        (p.route.getD []) (p.registration.getD [])) (get_next_ticket_number cf).1,
      Effect.emailPassenger, Effect.emailPilot],
    some (get_next_ticket_number cf).1,
    some (generate_flight_id (p.flight_date.getD []) (p.route.getD [])
      (p.registration.getD []))⟩

/-- Conjunction of the four base64 size checks, in their passing form. -/
def imagesWithinCaps (p : Payload) : Prop :=
  (p.signature_data.getD []).length ≤ MAX_SINGLE_IMAGE_BASE64 ∧
  (p.photo1_data.getD []).length ≤ MAX_SINGLE_IMAGE_BASE64 ∧
  (p.photo2_data.getD []).length ≤ MAX_SINGLE_IMAGE_BASE64 ∧
  (p.signature_data.getD []).length + (p.photo1_data.getD []).length +
    (p.photo2_data.getD []).length ≤ MAX_TOTAL_BASE64

theorem cap_of_check_false (s : Str)
    (h : (!s.isEmpty && decide (s.length > MAX_SINGLE_IMAGE_BASE64)) = false) :
    s.length ≤ MAX_SINGLE_IMAGE_BASE64 := by
  cases hs : s.isEmpty with
  | true =>
    rw [List.isEmpty_iff.mp hs]
    simp [MAX_SINGLE_IMAGE_BASE64]
  | false =>
    rw [hs] at h
    simp only [Bool.not_false, Bool.true_and, decide_eq_false_iff_not,
      not_lt] at h
    exact h

theorem submit_cases (p : Payload) :
    (∀ cf, submit_ticket p cf = rejected cf) ∨
    ((∀ cf, submit_ticket p cf = submitSuccess p cf) ∧ imagesWithinCaps p) := by
  cases h1 : truthy p.name with
  | false => exact Or.inl (fun cf => by unfold submit_ticket; simp [h1])
  | true =>
  cases h2 : truthy p.email with
  | false => exact Or.inl (fun cf => by unfold submit_ticket; simp [h2])
  | true =>
  cases h3 : truthy p.body_weight with
  | false => exact Or.inl (fun cf => by unfold submit_ticket; simp [h3])
  | true =>
  cases h4 : truthy p.flight_date with
  | false => exact Or.inl (fun cf => by unfold submit_ticket; simp [h4])
  | true =>
  cases h5 : truthy p.route with
  | false => exact Or.inl (fun cf => by unfold submit_ticket; simp [h5])
  | true =>
  cases h6 : truthy p.registration with
  | false => exact Or.inl (fun cf => by unfold submit_ticket; simp [h6])
  | true =>
  cases h7 : p.dg_acknowledged with
  | false => exact Or.inl (fun cf => by unfold submit_ticket; simp [h7])
  | true =>
  cases h8 : p.conditions_accepted with
  | false => exact Or.inl (fun cf => by unfold submit_ticket; simp [h8])
  | true =>
  cases h9 : truthy p.signature_data with
  | false => exact Or.inl (fun cf => by unfold submit_ticket; simp [h9])
  | true =>
  cases h10 : (!(p.signature_data.getD []).isEmpty &&
      decide ((p.signature_data.getD []).length > MAX_SINGLE_IMAGE_BASE64)) with
  | true => exact Or.inl (fun cf => by unfold submit_ticket; simp [h10])
  | false =>
  cases h11 : (!(p.photo1_data.getD []).isEmpty &&
      decide ((p.photo1_data.getD []).length > MAX_SINGLE_IMAGE_BASE64)) with
  | true => exact Or.inl (fun cf => by unfold submit_ticket; simp [h11])
  | false =>
  cases h12 : (!(p.photo2_data.getD []).isEmpty &&
      decide ((p.photo2_data.getD []).length > MAX_SINGLE_IMAGE_BASE64)) with
  | true => exact Or.inl (fun cf => by unfold submit_ticket; simp [h12])
  | false =>
  by_cases h13 : (p.signature_data.getD []).length + (p.photo1_data.getD []).length +
      (p.photo2_data.getD []).length > MAX_TOTAL_BASE64
  · exact Or.inl (fun cf => by unfold submit_ticket; simp [h13])
  · refine Or.inr ⟨fun cf => ?_, ?_⟩
    · unfold submit_ticket submitSuccess
      simp [h1, h2, h3, h4, h5, h6, h7, h8, h9, h10, h11, h12, h13]
    · exact ⟨cap_of_check_false _ h10, cap_of_check_false _ h11,
        cap_of_check_false _ h12, le_of_not_lt h13⟩

/-! The claims. -/

/-- C1 counterexample: the claim asserts that `create_ticket_pdf` tries
candidate font sizes in descending order and commits the largest at which
both condition columns fit, falling back to the smallest candidate. The
code commits the constant size 5.5 without measuring anything, so no
strictly descending candidate list with at least two sizes can describe it:
at the all-fit outcome the auto-fit search returns the largest candidate
and at the none-fit outcome the smallest, which would then both have to
equal the constant committed size. -/
theorem C1_counterexample :
    ¬ ∃ cands : List ℚ, 2 ≤ cands.length ∧ List.Pairwise (· > ·) cands ∧
      ∀ (fits : ℚ → Bool) (avail : ℚ) (n : ℕ),
        conditionsFontSize avail n = autoFitFontSize cands fits := by
  rintro ⟨cands, hlen, hsort, hall⟩
  match cands, hlen, hsort, hall with
  | c :: d :: rest, _, hsort, hall =>
    have h1 := hall (fun _ => true) 0 0
    have h2 := hall (fun _ => false) 0 0
    rw [autoFit_const_false _ (by simp)] at h2
    have hc : conditionsFontSize 0 0 = c := by
      simpa [autoFitFontSize] using h1
    have hlast : (c :: d :: rest).getLast (by simp) ∈ d :: rest := by
      rw [List.getLast_cons (by simp)]
      exact List.getLast_mem _
    have hgt : c > (c :: d :: rest).getLast (by simp) :=
      (List.pairwise_cons.mp hsort).1 _ hlast
    rw [← h2, ← hc] at hgt
    exact lt_irrefl _ hgt

/-- C1 (amended): `create_ticket_pdf` commits the single fixed font size
5.5 for the conditions text, independent of the available height and of
the number of text lines — the degenerate single-candidate instance of the
described auto-fit; the conditions lines are split into two columns at half
the line count; and the column frames span the full remaining height
between the draw cursor and the footer reserve. Overflow is silently
clipped, with no error raised (the rendering model is a total function). -/
theorem C1_amended_fixed_size :
    (∀ (avail : ℚ) (n : ℕ) (fits : ℚ → Bool),
      conditionsFontSize avail n = autoFitFontSize (11 / 2 :: []) fits) ∧
    (∀ y inner_margin : ℚ,
      conditions_height y inner_margin = y - inner_margin - 28 * mmQ - 10 * mmQ) ∧
    (∀ lines : List Str,
      (splitConditions lines).1 ++ (splitConditions lines).2 = lines ∧
      (splitConditions lines).1.length = lines.length / 2) := by
  refine ⟨fun _ _ _ => rfl, fun _ _ => rfl, fun lines => ⟨?_, ?_⟩⟩
  · exact List.take_append_drop _ _
  · simp [splitConditions, List.length_take,
      Nat.min_eq_left (Nat.div_le_self _ _)]

/-- C2 counterexample: the claim describes `slugify` as stripping every
character that is not alphanumeric, whitespace, or hyphen, and says nothing
about trimming. The code keeps underscores (regex `\w`) and trims
leading/trailing whitespace before substituting, so on the route string
consisting of one underscore, and on a string with a leading space, the
code and the claim's description produce different flight identifiers. -/
theorem C2_counterexample :
    slugify ('_' :: []) = ('_' :: []) ∧
    slugClaimWords ('_' :: []) = [] ∧
    slugify (' ' :: 'a' :: []) = ('a' :: []) ∧
    slugClaimWords (' ' :: 'a' :: []) = ('-' :: 'a' :: []) ∧
    generate_flight_id ('d' :: []) ('_' :: []) ('r' :: []) ≠
      ('d' :: []) ++ '_' :: slugClaimWords ('_' :: []) ++
        '_' :: slugClaimWords ('r' :: []) := by
  refine ⟨by decide, by decide, by decide, by decide, by decide⟩

/-- C2 (amended): `generate_flight_id` joins the date with the slugs of
route and registration by underscores, where the slug lower-cases the
input, strips leading and trailing whitespace, removes every character that
is not a word character (letter, digit, or underscore), whitespace, or
hyphen, and collapses every run of whitespace and hyphens to a single
hyphen. As a Lean function the identifier is deterministic and a pure
function of its three arguments. -/
theorem C2_amended_flight_id (date route reg : Str) :
    generate_flight_id date route reg =
      date ++ '_' :: slugAmendedWords route ++ '_' :: slugAmendedWords reg := by
  unfold generate_flight_id
  rw [slugify_eq_amended route, slugify_eq_amended reg]

/-- C10: `slugify` is idempotent, so re-deriving the flight identifier from
already-slugified route and registration strings gives the identifier
obtained from the originals. -/
theorem C10_slugify_idempotent (s date route reg : Str) :
    slugify (slugify s) = slugify s ∧
    generate_flight_id date (slugify route) (slugify reg) =
      generate_flight_id date route reg := by
  refine ⟨slugify_id_of_ok _ (slugOk_slugify s), ?_⟩
  unfold generate_flight_id
  rw [slugify_id_of_ok _ (slugOk_slugify route),
    slugify_id_of_ok _ (slugOk_slugify reg)]

/-- C3: a submission missing any required field (name, email, body_weight,
flight_date, route, registration), or with dg_acknowledged false, or with
conditions_accepted false, or without signature data, is answered with
HTTP 400; the counter file is untouched and no effect (no decode, no
counter write, no PDF, no manifest row, no email) is performed. -/
theorem C3_validation_rejects (p : Payload) (counterFile : Option ℤ)
    (h : truthy p.name = false ∨ truthy p.email = false ∨
      truthy p.body_weight = false ∨ truthy p.flight_date = false ∨
      truthy p.route = false ∨ truthy p.registration = false ∨
      p.dg_acknowledged = false ∨ p.conditions_accepted = false ∨
      truthy p.signature_data = false) :
    (submit_ticket p counterFile).status = 400 ∧
    (submit_ticket p counterFile).counter = counterFile ∧
    (submit_ticket p counterFile).effects = [] := by
  have hr : submit_ticket p counterFile = rejected counterFile := by
    unfold submit_ticket
    rcases h with h | h | h | h | h | h | h | h | h <;> simp [h]
  rw [hr]
  exact ⟨rfl, rfl, rfl⟩

/-- A payload that is complete and valid except that the name is absent. -/
def payloadNoName : Payload :=
  ⟨none, some ('e' :: []), some ('8' :: '0' :: []), some ('d' :: []),
    some ('r' :: []), some ('z' :: []), some ('t' :: []), some ('h' :: []),
    some ('p' :: []), some ('1' :: []), some ('2' :: []), true, true,
    some ('s' :: []), none, none⟩

/-- Witness for C3 at a concrete payload with a missing name. -/
theorem C3_witness :
    (submit_ticket payloadNoName (some 1548)).status = 400 ∧
    (submit_ticket payloadNoName (some 1548)).counter = some 1548 ∧
    (submit_ticket payloadNoName (some 1548)).effects = [] :=
  C3_validation_rejects payloadNoName (some 1548) (Or.inl (by decide))

/-- C4: with the counter file holding the integer n, a successful
submission is assigned ticket number n+1, persists n+1 back to the counter
file, and appends a manifest row carrying n+1; running the identical
submission again from the persisted state succeeds with ticket number
n+2, strictly larger than n+1. -/
theorem C4_counter_advances (p : Payload) (n : ℤ)
    (h : (submit_ticket p (some n)).status = 200) :
    (submit_ticket p (some n)).ticket_number = some (n + 1) ∧
    (submit_ticket p (some n)).counter = some (n + 1) ∧
    (∃ fid, Effect.manifestAppend fid (n + 1) ∈ (submit_ticket p (some n)).effects) ∧
    (submit_ticket p (some (n + 1))).status = 200 ∧
    (submit_ticket p (some (n + 1))).ticket_number = some (n + 2) ∧
    n + 1 < n + 2 := by
  rcases submit_cases p with hrej | ⟨hsucc, _⟩
  · rw [hrej (some n)] at h
    exact absurd h (by simp [rejected])
  · rw [hsucc (some n), hsucc (some (n + 1))]
    unfold submitSuccess get_next_ticket_number
    refine ⟨rfl, rfl, ⟨generate_flight_id (p.flight_date.getD [])
      (p.route.getD []) (p.registration.getD []), by simp⟩, rfl, ?_, by omega⟩
    simp only [Option.some.injEq]
    ring

/-- A complete valid payload with small concrete field values. -/
def payloadValid : Payload :=
  ⟨some ('j' :: []), some ('e' :: []), some ('8' :: '0' :: []),
    some ('d' :: []), some ('r' :: []), some ('z' :: []), some ('t' :: []),
    some ('h' :: []), some ('p' :: []), some ('1' :: []), some ('2' :: []),
    true, true, some ('s' :: []), none, none⟩

/-- Witness for C4 at a concrete valid payload and counter value 1548. -/
theorem C4_witness :
    (submit_ticket payloadValid (some 1548)).ticket_number = some (1548 + 1) ∧
    (submit_ticket payloadValid (some 1548)).counter = some (1548 + 1) ∧
    (submit_ticket payloadValid (some (1548 + 1))).ticket_number = some (1548 + 2) := by
  have h := C4_counter_advances payloadValid 1548 (by decide)
  exact ⟨h.1, h.2.1, h.2.2.2.2.1⟩

/-- C5: the shared send primitive is a total function (the caller never
receives an exception): its boolean result is true exactly when the message
was delivered live and false exactly when it was persisted to the outbox
fallback store, and on any transport-level failure — as well as when SMTP
is not configured — the composed message is persisted to the fallback
store and the flag is false. -/
theorem C5_send_email_flag (smtpConfigured : Bool) (t : Transport) :
    ((send_email smtpConfigured t).1 = true ↔
      (send_email smtpConfigured t).2 = MailFate.sentLive) ∧
    ((send_email smtpConfigured t).1 = false ↔
      (send_email smtpConfigured t).2 = MailFate.savedToOutbox) ∧
    (t ≠ Transport.delivered ∨ smtpConfigured = false →
      (send_email smtpConfigured t).1 = false ∧
      (send_email smtpConfigured t).2 = MailFate.savedToOutbox) := by
  cases smtpConfigured <;> cases t <;> simp [send_email]

/-- Witness for C5 at a concrete transport failure. -/
theorem C5_witness :
    (send_email true Transport.smtpError).1 = false ∧
    (send_email true Transport.smtpError).2 = MailFate.savedToOutbox :=
  (C5_send_email_flag true Transport.smtpError).2.2 (Or.inl (by decide))

/-- C6: appending N submissions to a flight whose manifest file does not
exist yet produces exactly one header line followed by the N data rows in
submission order; `append_to_manifest` writes the header exactly when the
file does not exist. -/
theorem C6_manifest_shape (rows : List PassengerRow)
    (ls : List ManifestLine) (r : PassengerRow) (hne : rows ≠ []) :
    appendAllRows none rows = some (ManifestLine.header :: rows.map ManifestLine.row) ∧
    append_to_manifest none r = [ManifestLine.header, ManifestLine.row r] ∧
    append_to_manifest (some ls) r = ls ++ [ManifestLine.row r] := by
  refine ⟨?_, rfl, rfl⟩
  cases rows with
  | nil => exact absurd rfl hne
  | cons r0 rs =>
    show appendAllRows (some (append_to_manifest none r0)) rs = _
    rw [append_to_manifest, appendAllRows_some]
    simp

/-- A manifest row with empty string fields. -/
def blankRow : PassengerRow :=
  ⟨[], [], [], [], [], [], [], [], [], [], [], [], [], []⟩

/-- Witness for C6 with one concrete appended row. -/
theorem C6_witness :
    appendAllRows none (blankRow :: []) =
      some (ManifestLine.header :: ManifestLine.row blankRow :: []) ∧
    append_to_manifest none blankRow =
      [ManifestLine.header, ManifestLine.row blankRow] := by
  have h := C6_manifest_shape (blankRow :: []) [] blankRow (by simp)
  exact ⟨h.1, h.2.1⟩

/-- C7: a submission in which the signature, photo 1, or photo 2 base64
string exceeds the single-image cap, or whose combined image length exceeds
the total cap, is answered with HTTP 400 and nothing happens: in particular
no base64 decode is performed, the counter file is untouched, and no other
effect is performed. -/
theorem C7_oversize_rejects (p : Payload) (counterFile : Option ℤ)
    (h : MAX_SINGLE_IMAGE_BASE64 < (p.signature_data.getD []).length ∨
      MAX_SINGLE_IMAGE_BASE64 < (p.photo1_data.getD []).length ∨
      MAX_SINGLE_IMAGE_BASE64 < (p.photo2_data.getD []).length ∨
      MAX_TOTAL_BASE64 < (p.signature_data.getD []).length +
        (p.photo1_data.getD []).length + (p.photo2_data.getD []).length) :
    (submit_ticket p counterFile).status = 400 ∧
    Effect.decodeImage ∉ (submit_ticket p counterFile).effects ∧
    (submit_ticket p counterFile).counter = counterFile ∧
    (submit_ticket p counterFile).effects = [] := by
  rcases submit_cases p with hrej | ⟨_, hcaps⟩
  · rw [hrej counterFile]
    exact ⟨rfl, by simp [rejected], rfl, rfl⟩
  · exfalso
    obtain ⟨c1, c2, c3, c4⟩ := hcaps
    rcases h with h | h | h | h <;> omega

/-- A payload whose signature field exceeds the single-image cap. -/
def payloadBigSignature : Payload :=
  ⟨some ('j' :: []), some ('e' :: []), some ('8' :: '0' :: []),
    some ('d' :: []), some ('r' :: []), some ('z' :: []), some ('t' :: []),
    some ('h' :: []), some ('p' :: []), some ('1' :: []), some ('2' :: []),
    true, true, some (List.replicate 800001 's'), none, none⟩

/-- Witness for C7 at a concrete oversized signature. -/
theorem C7_witness :
    (submit_ticket payloadBigSignature (some 1548)).status = 400 ∧
    (submit_ticket payloadBigSignature (some 1548)).effects = [] := by
  have hsig : payloadBigSignature.signature_data = some (List.replicate 800001 's') :=
    rfl
  have h := C7_oversize_rejects payloadBigSignature (some 1548)
    (Or.inl (by rw [hsig, Option.getD_some, List.length_replicate]
                norm_num [MAX_SINGLE_IMAGE_BASE64]))
  exact ⟨h.1, h.2.2.2⟩

/-- C8 counterexample: the claim says a row field that fails numeric
parsing contributes zero while the row's other parsable fields are still
summed. In the code all three increments run in a single try block, so on
the row (body bad, bag 5, bags 2) the code adds nothing at all, while the
claim's reading would still count bag weight 5 and bag count 2. -/
theorem C8_counterexample :
    flightTotals (⟨NumCell.bad, NumCell.num 5, NumCell.num 2⟩ :: []) = (0, 0, 0) ∧
    flightTotalsClaim (⟨NumCell.bad, NumCell.num 5, NumCell.num 2⟩ :: []) = (0, 5, 2) ∧
    flightTotals (⟨NumCell.bad, NumCell.num 5, NumCell.num 2⟩ :: []) ≠
      flightTotalsClaim (⟨NumCell.bad, NumCell.num 5, NumCell.num 2⟩ :: []) := by
  have h1 : flightTotals (⟨NumCell.bad, NumCell.num 5, NumCell.num 2⟩ :: []) =
      (0, 0, 0) := by
    norm_num [flightTotals, rowTotalsStep, floatPy]
  have h2 : flightTotalsClaim (⟨NumCell.bad, NumCell.num 5, NumCell.num 2⟩ :: []) =
      (0, 5, 2) := by
    norm_num [flightTotalsClaim, rowTotalsClaimStep, floatPy]
  refine ⟨h1, h2, ?_⟩
  rw [h1, h2]
  intro hcontra
  have := congrArg (fun x : ℚ × ℚ × ℚ => x.2.1) hcontra
  norm_num at this

/-- C8 (amended): `get_flight_summary` is a total function (it never
raises); on a missing or empty manifest every count and total is zero; and
over any manifest the totals follow the single-try-block semantics: a
field's value is counted exactly when it and every field before it in the
order body weight, bag weight, bag count parsed, so a parse failure zeroes
that field and the later fields of the row while keeping the earlier ones. -/
theorem C8_amended_summary (rows : List SummaryRow) :
    get_flight_summary none = (0, 0, 0, 0) ∧
    get_flight_summary (some []) = (0, 0, 0, 0) ∧
    get_flight_summary (some rows) =
      (rows.length, (rows.map bodyContrib).sum, (rows.map bagContrib).sum,
        (rows.map bagsContrib).sum) := by
  refine ⟨rfl, rfl, ?_⟩
  unfold get_flight_summary read_manifest flightTotals
  rw [flightTotals_foldl]
  simp

/-- C9 counterexample: the claim says a create-link request with any empty
flight field — aircraft type included — is rejected. The code validates
only date, time, route, registration and pilot, so a request with an empty
aircraft type is accepted: HTTP 200 with a URL and QR built. -/
theorem C9_counterexample :
    (create_link ⟨('d' :: []), ('t' :: []), ('r' :: []), [], ('g' :: []),
      ('p' :: []), []⟩ true).status = 200 ∧
    (create_link ⟨('d' :: []), ('t' :: []), ('r' :: []), [], ('g' :: []),
      ('p' :: []), []⟩ true).urlParams ≠ none := by
  refine ⟨by decide, by decide⟩

/-- C9 (amended): a create-link request with an empty date, time, route,
registration, or pilot (aircraft type is not validated) is answered with
HTTP 400 and builds no URL, no QR, and attempts no email; when those five
fields are non-empty the handler returns HTTP 200 with the share URL
parameters and a QR encoding the same URL, independently of the email
transport outcome. -/
theorem C9_amended_create_link (f : LinkForm) (t t2 : Bool) :
    (f.date = [] ∨ f.time = [] ∨ f.route = [] ∨ f.reg = [] ∨ f.pilot = [] →
      create_link f t = ⟨400, none, none, none⟩) ∧
    (f.date ≠ [] → f.time ≠ [] → f.route ≠ [] → f.reg ≠ [] → f.pilot ≠ [] →
      (create_link f t).status = 200 ∧
      (create_link f t).urlParams ≠ none ∧
      (create_link f t).qrContent = (create_link f t).urlParams ∧
      (create_link f t).status = (create_link f t2).status ∧
      (create_link f t).urlParams = (create_link f t2).urlParams) := by
  constructor
  · intro h
    unfold create_link
    rcases h with h | h | h | h | h <;> simp [h]
  · intro h1 h2 h3 h4 h5
    have hcond : (f.date.isEmpty || f.time.isEmpty || f.route.isEmpty ||
        f.reg.isEmpty || f.pilot.isEmpty) = false := by
      simp [List.isEmpty_iff, h1, h2, h3, h4, h5]
    unfold create_link
    simp [hcond]

/-- Witness for C9 at two concrete forms: one with an empty date
(rejected), one fully filled (accepted regardless of transport failure). -/
theorem C9_witness :
    create_link ⟨[], ('t' :: []), ('r' :: []), ('a' :: []), ('g' :: []),
      ('p' :: []), []⟩ true = ⟨400, none, none, none⟩ ∧
    (create_link ⟨('d' :: []), ('t' :: []), ('r' :: []), ('a' :: []),
      ('g' :: []), ('p' :: []), ('e' :: [])⟩ false).status = 200 := by
  constructor
  · exact (C9_amended_create_link ⟨[], ('t' :: []), ('r' :: []), ('a' :: []),
      ('g' :: []), ('p' :: []), []⟩ true true).1 (Or.inl rfl)
  · exact ((C9_amended_create_link ⟨('d' :: []), ('t' :: []), ('r' :: []),
      ('a' :: []), ('g' :: []), ('p' :: []), ('e' :: [])⟩ false false).2
      (by decide) (by decide) (by decide) (by decide) (by decide)).1
